import Mathlib

/-!
Verification development for the SEN_MCP repository: a backend bridge that
lets an LLM provider call a fixed catalog of Brazilian legislative open-data
tools.  The Python sources are embedded shallowly:

* `convert_schema_to_gemini` (src/api/index.py:46-63, src/backend/main.py:40-62)
  over a JSON value model `JVal`;
* the Groq and Gemini chat drivers `chat_with_groq` / `chat_with_gemini` of
  both deployment variants (src/backend/main.py:206-342, src/api/index.py:186-283),
  with the LLM and the MCP tool sessions abstracted as oracles;
* the 31-entry tool catalog `AVAILABLE_TOOLS` / `TOOLS_SCHEMA`
  (src/api/senado_camara_tools.py:678-1150);
* the URL construction of `buscar_senadores` via `_call_senado_api`
  (src/api/senado_camara_tools.py:43-110).
-/

/-! ### Python string primitives -/

/-- Python `str.upper` on one basic-latin character (Lean core `Char.toUpper`:
maps `a`-`z` to `A`-`Z`, leaves everything else).  The type tokens the schema
adapter upper-cases are ASCII, so this models `str.upper` faithfully there. -/
def char_upper (c : Char) : Char := Char.toUpper c

/-- Python `str.upper`: upper-case each character. -/
def str_upper (s : String) : String := ⟨s.data.map char_upper⟩

/-- Python `str.endswith`: is `suffix` a suffix of `s`. -/
def str_endswith (s suffix : String) : Bool := List.isSuffixOf suffix.data s.data

/-! ### JSON values

Python dicts are finite ordered key-value sequences (`JObj`), lists are
ordered sequences (`JArr`).  The mutual encoding keeps every function below
structurally recursive. -/

mutual

inductive JVal : Type where
| str (s : String) : JVal
| num (n : Int) : JVal
| bool (b : Bool) : JVal
| null : JVal
| arr (items : JArr) : JVal
| obj (fields : JObj) : JVal

inductive JArr : Type where
| nil : JArr
| cons (hd : JVal) (tl : JArr) : JArr

inductive JObj : Type where
| nil : JObj
| cons (key : String) (val : JVal) (tl : JObj) : JObj

end

/-- The adapter's exclusion set: `skip_fields = {"default", "additionalProperties",
"examples", "nullable"}` (src/backend/main.py:45). -/
def skip_fields (k : String) : Bool :=
  k == "default" || k == "additionalProperties" || k == "examples" || k == "nullable"

/-! ### The schema adapter

`convert_schema_to_gemini` (identical in src/api/index.py:46-63 and
src/backend/main.py:40-62).  A non-dict input is returned unchanged.  For a
dict, each key-value pair is processed in order: exclusion keys are dropped;
a `"properties"` key with dict value recurses into every value keeping the
keys; a `"type"` key with string value is upper-cased; any other dict value
recurses; a list value recurses into its dict elements only (`convert` is the
identity on non-dicts, mirroring Python's
`convert(item) if isinstance(item, dict) else item`); other leaves pass
through. -/

mutual

def convert_schema_to_gemini : JVal → JVal
| JVal.obj fields => JVal.obj (convertObj fields)
| v => v

def convertObj : JObj → JObj
| JObj.nil => JObj.nil
| JObj.cons k v tl =>
  if skip_fields k then convertObj tl
  else JObj.cons k (convertEntry k v) (convertObj tl)

def convertEntry : String → JVal → JVal
| k, JVal.obj m =>
  if k == "properties" then JVal.obj (convertProps m) else JVal.obj (convertObj m)
| k, JVal.str s => if k == "type" then JVal.str (str_upper s) else JVal.str s
| _, JVal.arr items => JVal.arr (convertElems items)
| _, v => v

def convertProps : JObj → JObj
| JObj.nil => JObj.nil
| JObj.cons k v tl => JObj.cons k (convert_schema_to_gemini v) (convertProps tl)

def convertElems : JArr → JArr
| JArr.nil => JArr.nil
| JArr.cons hd tl => JArr.cons (convert_schema_to_gemini hd) (convertElems tl)

end

/-! ### Reference passes

Modelled from the spec: §4.1 splits the adapter's behaviour into two rules,
"drop keys in the exclusion set at every nesting level" and "for a key
literally named type whose value is a string, transform it to upper-case",
both applied along the very same depth-first traversal (recursing through
dict values, the values of a `properties` mapping, and the dict elements of
lists).  `dropSkip` is the first rule alone, `upperTypes` the second alone;
neither touches anything else. -/

mutual

def dropSkip : JVal → JVal
| JVal.obj fields => JVal.obj (dropSkipObj fields)
| v => v

def dropSkipObj : JObj → JObj
| JObj.nil => JObj.nil
| JObj.cons k v tl =>
  if skip_fields k then dropSkipObj tl
  else JObj.cons k (dropSkipEntry k v) (dropSkipObj tl)

def dropSkipEntry : String → JVal → JVal
| k, JVal.obj m =>
  if k == "properties" then JVal.obj (dropSkipProps m) else JVal.obj (dropSkipObj m)
| _, JVal.arr items => JVal.arr (dropSkipElems items)
| _, v => v

def dropSkipProps : JObj → JObj
| JObj.nil => JObj.nil
| JObj.cons k v tl => JObj.cons k (dropSkip v) (dropSkipProps tl)

def dropSkipElems : JArr → JArr
| JArr.nil => JArr.nil
| JArr.cons hd tl => JArr.cons (dropSkip hd) (dropSkipElems tl)

end

mutual

def upperTypes : JVal → JVal
| JVal.obj fields => JVal.obj (upperTypesObj fields)
| v => v

def upperTypesObj : JObj → JObj
| JObj.nil => JObj.nil
| JObj.cons k v tl => JObj.cons k (upperTypesEntry k v) (upperTypesObj tl)

def upperTypesEntry : String → JVal → JVal
| k, JVal.obj m =>
  if k == "properties" then JVal.obj (upperTypesProps m) else JVal.obj (upperTypesObj m)
| k, JVal.str s => if k == "type" then JVal.str (str_upper s) else JVal.str s
| _, JVal.arr items => JVal.arr (upperTypesElems items)
| _, v => v

def upperTypesProps : JObj → JObj
| JObj.nil => JObj.nil
| JObj.cons k v tl => JObj.cons k (upperTypes v) (upperTypesProps tl)

def upperTypesElems : JArr → JArr
| JArr.nil => JArr.nil
| JArr.cons hd tl => JArr.cons (upperTypes hd) (upperTypesElems tl)

end

/-! `containsKey k v`: does the key `k` occur in any dict anywhere inside `v`,
at arbitrary depth, including dicts inside nested lists and the keys of
`properties` mappings.  This is the "at any depth" reading of the claims. -/

mutual

def containsKey (k : String) : JVal → Bool
| JVal.obj fields => containsKeyObj k fields
| JVal.arr items => containsKeyArr k items
| _ => false

def containsKeyObj (k : String) : JObj → Bool
| JObj.nil => false
| JObj.cons k2 v tl => k == k2 || containsKey k v || containsKeyObj k tl

def containsKeyArr (k : String) : JArr → Bool
| JArr.nil => false
| JArr.cons hd tl => containsKey k hd || containsKeyArr k tl

end

/-! ### Tool invocation model

The MCP runtime is abstracted: `ToolEnv.known` is membership in
`mcp_tools_map`, and `ToolEnv.call` is the outcome of
`asyncio.wait_for(session.call_tool(name, arguments), timeout=25.0)`:
either a result whose `content[0]` carries text, a result with empty or
text-less content (the code then uses `str(mcp_result)`), a timeout
(`asyncio.TimeoutError`), or another exception with message `msg`
(`str(e)`). -/

/-- Tool-call arguments: Python `fn_args`, a JSON object already parsed. -/
abbrev Args : Type := List (String × JVal)

inductive CallResult : Type where
| content (text : String) : CallResult
| empty (repr : String) : CallResult
| timeout : CallResult
| raises (msg : String) : CallResult

structure ToolEnv : Type where
  known : String → Bool
  call : String → Args → CallResult

/-- Tool output of the remote-session Groq driver (src/backend/main.py:234-246).
Only reached when `fn_name in mcp_tools_map`; `asyncio.TimeoutError` and other
exceptions become textual results. -/
def groq_tool_output_backend (env : ToolEnv) (name : String) (args : Args) : String :=
  match env.call name args with
  | CallResult.content t => t
  | CallResult.empty r => r
  | CallResult.timeout => "Erro: Timeout ao executar " ++ name
  | CallResult.raises m => "Erro ao executar ferramenta: " ++ m

/-- Tool output of the stateless Groq driver (src/api/index.py:212-217).
A single `except Exception` catches everything, including the timeout, whose
`str(e)` is the empty string. -/
def groq_tool_output_index (env : ToolEnv) (name : String) (args : Args) : String :=
  match env.call name args with
  | CallResult.content t => t
  | CallResult.empty r => r
  | CallResult.timeout => "Erro ferramenta: "
  | CallResult.raises m => "Erro ferramenta: " ++ m

/-- Tool output of the remote-session Gemini driver (src/backend/main.py:304-324),
including the unknown-tool branch `"Erro: Ferramenta {fn_name} desconhecida."`. -/
def gemini_tool_output_backend (env : ToolEnv) (name : String) (args : Args) : String :=
  if env.known name then
    match env.call name args with
    | CallResult.content t => t
    | CallResult.empty r => r
    | CallResult.timeout => "Erro: Timeout na ferramenta " ++ name
    | CallResult.raises m => "Erro na execução da ferramenta: " ++ m
  else "Erro: Ferramenta " ++ name ++ " desconhecida."

/-- Tool output of the stateless Gemini driver (src/api/index.py:262-272),
including the unknown-tool branch `"Ferramenta {fn_name} nao encontrada."`;
its single `except Exception` renders the timeout with an empty message. -/
def gemini_tool_output_index (env : ToolEnv) (name : String) (args : Args) : String :=
  if env.known name then
    match env.call name args with
    | CallResult.content t => t
    | CallResult.empty r => r
    | CallResult.timeout => "Erro execucao: "
    | CallResult.raises m => "Erro execucao: " ++ m
  else "Ferramenta " ++ name ++ " nao encontrada."

/-! ### The Groq chat drivers -/

/-- One entry of `response.choices[0].message.tool_calls`. -/
structure GroqCall : Type where
  id : String
  name : String
  args : Args

/-- The first Groq completion's message: its `tool_calls` (`[]` models
`None`/empty, which Python reads as falsy) and its `content`. -/
structure GroqResponse : Type where
  toolCalls : List GroqCall
  content : Option String

/-- The HTTP-level outcome of a chat request: a 200 body `{"reply": ...}`
(`reply` is `None` when the returned message content is null) or an
`HTTPException(status, detail)`. -/
inductive ChatOutcome : Type where
| ok (reply : Option String) : ChatOutcome
| httpError (status : Nat) (detail : String) : ChatOutcome

/-- What one Groq chat request did: the outcome plus the observable driver
trace — how many `session.call_tool` invocations ran, how many assistant
tool-call turns and which tool-role turn contents were appended to
`messages`, and whether a second `completions.create` was issued. -/
structure GroqRun : Type where
  result : ChatOutcome
  invocations : Nat
  assistantTurns : Nat
  toolTurns : List String
  secondCompletion : Bool

/-- The first tool call whose name is in `mcp_tools_map` — the backend Groq
for-loop does nothing for an unknown name and returns inside the body of the
first known one (src/backend/main.py:230-263). -/
def firstKnown (env : ToolEnv) : List GroqCall → Option GroqCall
| [] => none
| c :: rest => if env.known c.name then some c else firstKnown env rest

/-- Remote-session Groq driver, `chat_with_groq` (src/backend/main.py:206-269).
`hasClient` is `groq_client` being configured; `resp1` and `resp2` are the
two `completions.create` outcomes (`Except.error m` models the SDK raising
with `str(e) = m`, which the outer `except` turns into an
`HTTPException(500, str(e))`). -/
def chat_with_groq_backend (hasClient : Bool) (env : ToolEnv)
    (resp1 : Except String GroqResponse) (resp2 : Except String (Option String)) : GroqRun :=
  if !hasClient then
    GroqRun.mk (ChatOutcome.httpError 500 "Groq API key não configurada") 0 0 [] false
  else
    match resp1 with
    | Except.error m => GroqRun.mk (ChatOutcome.httpError 500 m) 0 0 [] false
    | Except.ok r =>
      match firstKnown env r.toolCalls with
      | some c =>
        let out := groq_tool_output_backend env c.name c.args
        match resp2 with
        | Except.error m => GroqRun.mk (ChatOutcome.httpError 500 m) 1 1 [out] true
        | Except.ok t => GroqRun.mk (ChatOutcome.ok t) 1 1 [out] true
      | none => GroqRun.mk (ChatOutcome.ok r.content) 0 0 [] false

/-- Stateless Groq driver, `chat_with_groq` (src/api/index.py:186-230).  Its
for-loop appends the turns and returns at the end of its first iteration
whatever the name was; an unknown name keeps the preset
`tool_output = "Erro desconhecido"` and invokes nothing. -/
def chat_with_groq_index (hasClient : Bool) (env : ToolEnv)
    (resp1 : Except String GroqResponse) (resp2 : Except String (Option String)) : GroqRun :=
  if !hasClient then
    GroqRun.mk (ChatOutcome.httpError 500 "Groq API key missing") 0 0 [] false
  else
    match resp1 with
    | Except.error m => GroqRun.mk (ChatOutcome.httpError 500 m) 0 0 [] false
    | Except.ok r =>
      match r.toolCalls with
      | [] => GroqRun.mk (ChatOutcome.ok r.content) 0 0 [] false
      | c :: _ =>
        let out := if env.known c.name then groq_tool_output_index env c.name c.args
                   else "Erro desconhecido"
        let inv := if env.known c.name then 1 else 0
        match resp2 with
        | Except.error m => GroqRun.mk (ChatOutcome.httpError 500 m) inv 1 [out] true
        | Except.ok t => GroqRun.mk (ChatOutcome.ok t) inv 1 [out] true

/-! ### The Gemini chat drivers -/

/-- One `chat.send_message` outcome: a terminal response (`text` — no
candidates, or the first part is not a `function_call`), a response whose
first part is a `function_call`, or the SDK raising with message `msg`. -/
inductive GemResponse : Type where
| text (t : String) : GemResponse
| call (name : String) (args : Args) : GemResponse
| fail (msg : String) : GemResponse

/-- What one Gemini chat request did: the outcome plus the tool outputs fed
back as `function_response` parts, in order. -/
structure GemRun : Type where
  result : ChatOutcome
  toolOutputs : List String

/-- The Gemini function-calling loop (src/backend/main.py:296-336,
src/api/index.py:255-278): `while response.candidates and
response.candidates[0].content.parts[0].function_call`.  `oracle i` is the
i-th `send_message` response.  The source loop has no iteration counter, so
the embedding takes explicit fuel: `none` means the loop is still running
after `fuel` responses — a run that no amount of fuel finishes models
non-termination.  An SDK exception (`GemResponse.fail`) is caught by the
enclosing `except`, which returns a 200 whose reply embeds the error. -/
def gemini_loop (toolOut : String → Args → String) (oracle : Nat → GemResponse) :
    Nat → Nat → Option GemRun
| 0, _ => none
| fuel + 1, i =>
  match oracle i with
  | GemResponse.text t => some (GemRun.mk (ChatOutcome.ok (some t)) [])
  | GemResponse.fail m => some (GemRun.mk (ChatOutcome.ok (some ("Erro interno: " ++ m))) [])
  | GemResponse.call name args =>
    let out := toolOut name args
    match gemini_loop toolOut oracle fuel (i + 1) with
    | none => none
    | some r => some (GemRun.mk r.result (out :: r.toolOutputs))

/-- Remote-session Gemini driver, `chat_with_gemini` (src/backend/main.py:273-342).
The import and API-key checks run before the `try`, so they surface as
`HTTPException(500, ...)`; everything inside the `try` that fails becomes a
200 with `"Erro interno: ..."` as the reply. -/
def chat_with_gemini_backend (hasLib hasKey : Bool) (env : ToolEnv)
    (oracle : Nat → GemResponse) (fuel : Nat) : Option GemRun :=
  if !hasLib then
    some (GemRun.mk (ChatOutcome.httpError 500 "Biblioteca google-generativeai não instalada.") [])
  else if !hasKey then
    some (GemRun.mk (ChatOutcome.httpError 500 "Google API key não configurada") [])
  else gemini_loop (gemini_tool_output_backend env) oracle fuel 0

/-- Stateless Gemini driver, `chat_with_gemini` (src/api/index.py:234-283). -/
def chat_with_gemini_index (hasLib hasKey : Bool) (env : ToolEnv)
    (oracle : Nat → GemResponse) (fuel : Nat) : Option GemRun :=
  if !hasLib then
    some (GemRun.mk (ChatOutcome.httpError 500 "google-generativeai missing") [])
  else if !hasKey then
    some (GemRun.mk (ChatOutcome.httpError 500 "Google API key missing") [])
  else gemini_loop (gemini_tool_output_index env) oracle fuel 0

/-- The chat dispatcher `chat_endpoint` of the remote-session variant
(src/backend/main.py:197-202): `model == "groq"` picks the Groq driver,
anything else the Gemini driver. -/
def chat_endpoint_backend (modelSel : String) (hasClient hasLib hasKey : Bool) (env : ToolEnv)
    (resp1 : Except String GroqResponse) (resp2 : Except String (Option String))
    (oracle : Nat → GemResponse) (fuel : Nat) : Option ChatOutcome :=
  if modelSel == "groq" then some (chat_with_groq_backend hasClient env resp1 resp2).result
  else (chat_with_gemini_backend hasLib hasKey env oracle fuel).map GemRun.result

/-! ### The tool catalog (src/api/senado_camara_tools.py)

`AVAILABLE_TOOLS` (lines 678-710) maps each exposed name to its Python
function; the functions themselves are HTTP wrappers, so they are embedded as
opaque-by-construction constructors of `ToolFn`.  `TOOLS_SCHEMA` (lines
714-1150) is the provider-facing description list, transcribed verbatim:
`ptype` embeds the source key `"type"` (a Lean keyword), and `required` is
`none` exactly where the source dict has no `"required"` key. -/

inductive ToolFn : Type where
| buscar_senadores | buscar_proposicoes_senado | detalhes_proposicao_senado
| votacoes_senado | listar_comissoes_senado | detalhes_comissao_senado
| membros_comissao_senado | reunioes_comissao_senado | buscar_agenda_comissao
| detalhes_reuniao_comissao | videos_reuniao_comissao | agenda_senado
| materia_senado | autorias_senador | listar_partidos_senado
| listar_tipos_cargo_comissoes | mesa_diretora_congresso_nacional
| mesa_diretora_senado_federal | buscar_deputados | detalhes_deputado
| buscar_proposicoes_camara | detalhes_proposicao_camara | votacoes_camara
| despesas_deputado | eventos_camara | listar_orgaos_camara
| detalhes_orgao_camara | membros_orgao_camara | partidos_camara
| blocos_camara | frentes_parlamentares

def AVAILABLE_TOOLS : List (String × ToolFn) := [
  ("buscar_senadores", ToolFn.buscar_senadores),
  ("buscar_proposicoes_senado", ToolFn.buscar_proposicoes_senado),
  ("detalhes_proposicao_senado", ToolFn.detalhes_proposicao_senado),
  ("votacoes_senado", ToolFn.votacoes_senado),
  ("listar_comissoes_senado", ToolFn.listar_comissoes_senado),
  ("detalhes_comissao_senado", ToolFn.detalhes_comissao_senado),
  ("membros_comissao_senado", ToolFn.membros_comissao_senado),
  ("reunioes_comissao_senado", ToolFn.reunioes_comissao_senado),
  ("buscar_agenda_comissao", ToolFn.buscar_agenda_comissao),
  ("detalhes_reuniao_comissao", ToolFn.detalhes_reuniao_comissao),
  ("videos_reuniao_comissao", ToolFn.videos_reuniao_comissao),
  ("agenda_senado", ToolFn.agenda_senado),
  ("materia_senado", ToolFn.materia_senado),
  ("autorias_senador", ToolFn.autorias_senador),
  ("listar_partidos_senado", ToolFn.listar_partidos_senado),
  ("listar_tipos_cargo_comissoes", ToolFn.listar_tipos_cargo_comissoes),
  ("mesa_diretora_congresso_nacional", ToolFn.mesa_diretora_congresso_nacional),
  ("mesa_diretora_senado_federal", ToolFn.mesa_diretora_senado_federal),
  ("buscar_deputados", ToolFn.buscar_deputados),
  ("detalhes_deputado", ToolFn.detalhes_deputado),
  ("buscar_proposicoes_camara", ToolFn.buscar_proposicoes_camara),
  ("detalhes_proposicao_camara", ToolFn.detalhes_proposicao_camara),
  ("votacoes_camara", ToolFn.votacoes_camara),
  ("despesas_deputado", ToolFn.despesas_deputado),
  ("eventos_camara", ToolFn.eventos_camara),
  ("listar_orgaos_camara", ToolFn.listar_orgaos_camara),
  ("detalhes_orgao_camara", ToolFn.detalhes_orgao_camara),
  ("membros_orgao_camara", ToolFn.membros_orgao_camara),
  ("partidos_camara", ToolFn.partidos_camara),
  ("blocos_camara", ToolFn.blocos_camara),
  ("frentes_parlamentares", ToolFn.frentes_parlamentares)]

/-- One property of a tool's parameter schema: its `"type"` string and its
`"description"` string. -/
structure ParamSchema : Type where
  ptype : String
  description : String

/-- A tool's `"parameters"` dict: a `"type"` string, a `"properties"` dict,
and the `"required"` list when the source entry has that key. -/
structure ToolParameters : Type where
  ptype : String
  properties : List (String × ParamSchema)
  required : Option (List String)

/-- One `TOOLS_SCHEMA` entry. -/
structure ToolSchemaEntry : Type where
  name : String
  description : String
  parameters : ToolParameters

def TOOLS_SCHEMA : List ToolSchemaEntry := [
  ToolSchemaEntry.mk "buscar_senadores"
    "Lista senadores em exercício, opcionalmente filtrados por UF."
    (ToolParameters.mk "OBJECT"
      [("uf", ParamSchema.mk "STRING" "Sigla do estado (ex: 'SP', 'RJ', 'MG') ou None para todos")]
      none),
  ToolSchemaEntry.mk "buscar_proposicoes_senado"
    "Busca proposições no Senado por tipo e ano."
    (ToolParameters.mk "OBJECT"
      [("sigla", ParamSchema.mk "STRING" "Tipo da proposição (ex: 'PEC', 'PL', 'PLS', 'MPV')"),
       ("ano", ParamSchema.mk "STRING" "Ano da proposição (ex: '2024', '2025')")]
      (some ["sigla"])),
  ToolSchemaEntry.mk "detalhes_proposicao_senado"
    "Obtém detalhes completos de uma proposição do Senado."
    (ToolParameters.mk "OBJECT"
      [("codigo", ParamSchema.mk "STRING" "Código da proposição (ex: '132046')")]
      (some ["codigo"])),
  ToolSchemaEntry.mk "votacoes_senado"
    "Lista votações do Senado em um período."
    (ToolParameters.mk "OBJECT"
      [("data_inicio", ParamSchema.mk "STRING" "Data inicial no formato AAAAMMDD (ex: '20250101')"),
       ("data_fim", ParamSchema.mk "STRING" "Data final no formato AAAAMMDD (opcional)")]
      (some ["data_inicio"])),
  ToolSchemaEntry.mk "listar_comissoes_senado"
    "Lista comissões do Senado Federal."
    (ToolParameters.mk "OBJECT"
      [("tipo", ParamSchema.mk "STRING" "Tipo da comissão - 'permanente', 'cpi', 'temporaria', 'orgaos' (padrão: 'permanente')")]
      none),
  ToolSchemaEntry.mk "detalhes_comissao_senado"
    "Obtém detalhes de uma comissão do Senado."
    (ToolParameters.mk "OBJECT"
      [("codigo", ParamSchema.mk "STRING" "Código numérico da comissão (ex: '40' para CAS, '38' para CAE, '34' para CCJ)")]
      (some ["codigo"])),
  ToolSchemaEntry.mk "membros_comissao_senado"
    "Lista membros de uma comissão do Senado."
    (ToolParameters.mk "OBJECT"
      [("codigo", ParamSchema.mk "STRING" "Código da comissão")]
      (some ["codigo"])),
  ToolSchemaEntry.mk "reunioes_comissao_senado"
    "Lista reuniões de uma comissão do Senado."
    (ToolParameters.mk "OBJECT"
      [("codigo", ParamSchema.mk "STRING" "Código da comissão"),
       ("data_inicio", ParamSchema.mk "STRING" "Data inicial no formato AAAAMMDD (opcional)"),
       ("data_fim", ParamSchema.mk "STRING" "Data final no formato AAAAMMDD (opcional)")]
      (some ["codigo"])),
  ToolSchemaEntry.mk "buscar_agenda_comissao"
    "Busca a agenda de comissões do Senado em um período para encontrar códigos de reuniões."
    (ToolParameters.mk "OBJECT"
      [("data_inicio", ParamSchema.mk "STRING" "Data inicial no formato YYYYMMDD (ex: '20251209')"),
       ("data_fim", ParamSchema.mk "STRING" "Data final no formato YYYYMMDD (opcional)")]
      (some ["data_inicio"])),
  ToolSchemaEntry.mk "detalhes_reuniao_comissao"
    "Obtém detalhes completos de uma reunião específica de comissão."
    (ToolParameters.mk "OBJECT"
      [("codigo_reuniao", ParamSchema.mk "STRING" "Código da reunião obtido via buscar_agenda_comissao")]
      (some ["codigo_reuniao"])),
  ToolSchemaEntry.mk "videos_reuniao_comissao"
    "Obtém os vídeos de uma reunião específica de comissão."
    (ToolParameters.mk "OBJECT"
      [("codigo_reuniao", ParamSchema.mk "STRING" "Código da reunião")]
      (some ["codigo_reuniao"])),
  ToolSchemaEntry.mk "agenda_senado"
    "Obtém a agenda geral do Senado Federal (sessões plenárias)."
    (ToolParameters.mk "OBJECT"
      [("data", ParamSchema.mk "STRING" "Data no formato AAAAMMDD (ex: '20250123'). Se omitido, retorna agenda atual.")]
      none),
  ToolSchemaEntry.mk "materia_senado"
    "Obtém informações completas sobre uma matéria legislativa do Senado."
    (ToolParameters.mk "OBJECT"
      [("codigo", ParamSchema.mk "STRING" "Código da matéria (ex: '132046')")]
      (some ["codigo"])),
  ToolSchemaEntry.mk "autorias_senador"
    "Lista proposições de autoria de um senador."
    (ToolParameters.mk "OBJECT"
      [("codigo_senador", ParamSchema.mk "STRING" "Código do senador")]
      (some ["codigo_senador"])),
  ToolSchemaEntry.mk "listar_partidos_senado"
    "Obtém a lista dos Partidos Políticos em atividade e/ou extintos no Senado Federal."
    (ToolParameters.mk "OBJECT" [] none),
  ToolSchemaEntry.mk "listar_tipos_cargo_comissoes"
    "Obtém a lista de Tipos de Cargo nas Comissões do Senado Federal e Congresso Nacional."
    (ToolParameters.mk "OBJECT" [] none),
  ToolSchemaEntry.mk "mesa_diretora_congresso_nacional"
    "Obtém a Composição dos integrantes da Mesa Diretora do Congresso Nacional."
    (ToolParameters.mk "OBJECT" [] none),
  ToolSchemaEntry.mk "mesa_diretora_senado_federal"
    "Obtém a Composição dos integrantes da Mesa Diretora do Senado Federal."
    (ToolParameters.mk "OBJECT" [] none),
  ToolSchemaEntry.mk "buscar_deputados"
    "Lista deputados em exercício, com filtros opcionais."
    (ToolParameters.mk "OBJECT"
      [("siglaUf", ParamSchema.mk "STRING" "Sigla do estado (ex: 'SP', 'RJ')"),
       ("siglaPartido", ParamSchema.mk "STRING" "Sigla do partido (ex: 'PT', 'PL', 'PSDB')")]
      none),
  ToolSchemaEntry.mk "detalhes_deputado"
    "Obtém informações detalhadas de um deputado."
    (ToolParameters.mk "OBJECT"
      [("id_deputado", ParamSchema.mk "STRING" "ID do deputado")]
      (some ["id_deputado"])),
  ToolSchemaEntry.mk "buscar_proposicoes_camara"
    "Busca proposições na Câmara dos Deputados."
    (ToolParameters.mk "OBJECT"
      [("siglaTipo", ParamSchema.mk "STRING" "Tipo da proposição (ex: 'PL', 'PEC', 'MPV')"),
       ("ano", ParamSchema.mk "STRING" "Ano da proposição (ex: '2024')"),
       ("autor", ParamSchema.mk "STRING" "Nome ou ID do autor"),
       ("keywords", ParamSchema.mk "STRING" "Palavras-chave para busca")]
      none),
  ToolSchemaEntry.mk "detalhes_proposicao_camara"
    "Obtém detalhes completos de uma proposição da Câmara."
    (ToolParameters.mk "OBJECT"
      [("id_proposicao", ParamSchema.mk "STRING" "ID da proposição")]
      (some ["id_proposicao"])),
  ToolSchemaEntry.mk "votacoes_camara"
    "Lista votações da Câmara dos Deputados."
    (ToolParameters.mk "OBJECT"
      [("id_proposicao", ParamSchema.mk "STRING" "ID da proposição (opcional)"),
       ("dataInicio", ParamSchema.mk "STRING" "Data inicial no formato AAAA-MM-DD"),
       ("dataFim", ParamSchema.mk "STRING" "Data final no formato AAAA-MM-DD")]
      none),
  ToolSchemaEntry.mk "despesas_deputado"
    "Obtém despesas da cota parlamentar de um deputado."
    (ToolParameters.mk "OBJECT"
      [("id_deputado", ParamSchema.mk "STRING" "ID do deputado"),
       ("ano", ParamSchema.mk "STRING" "Ano das despesas (ex: '2024')"),
       ("mes", ParamSchema.mk "STRING" "Mês das despesas (1-12, opcional)")]
      (some ["id_deputado", "ano"])),
  ToolSchemaEntry.mk "eventos_camara"
    "Lista eventos (reuniões, audiências) da Câmara."
    (ToolParameters.mk "OBJECT"
      [("dataInicio", ParamSchema.mk "STRING" "Data inicial no formato AAAA-MM-DD"),
       ("dataFim", ParamSchema.mk "STRING" "Data final no formato AAAA-MM-DD")]
      none),
  ToolSchemaEntry.mk "listar_orgaos_camara"
    "Lista todos os órgãos (comissões, frentes, etc) da Câmara."
    (ToolParameters.mk "OBJECT" [] none),
  ToolSchemaEntry.mk "detalhes_orgao_camara"
    "Obtém detalhes de um órgão (comissão) da Câmara."
    (ToolParameters.mk "OBJECT"
      [("id_orgao", ParamSchema.mk "STRING" "ID do órgão")]
      (some ["id_orgao"])),
  ToolSchemaEntry.mk "membros_orgao_camara"
    "Lista membros de um órgão (comissão) da Câmara."
    (ToolParameters.mk "OBJECT"
      [("id_orgao", ParamSchema.mk "STRING" "ID do órgão")]
      (some ["id_orgao"])),
  ToolSchemaEntry.mk "partidos_camara"
    "Lista partidos com representação na Câmara dos Deputados."
    (ToolParameters.mk "OBJECT" [] none),
  ToolSchemaEntry.mk "blocos_camara"
    "Lista blocos parlamentares da Câmara dos Deputados."
    (ToolParameters.mk "OBJECT" [] none),
  ToolSchemaEntry.mk "frentes_parlamentares"
    "Lista frentes parlamentares da Câmara dos Deputados."
    (ToolParameters.mk "OBJECT" [] none)]

/-! ### buscar_senadores URL construction (src/api/senado_camara_tools.py:43-110) -/

/-- `base_url` inside `_call_senado_api`. -/
def senado_base_url : String := "https://legis.senado.leg.br/dadosabertos"

/-- The URL `_call_senado_api(endpoint, format_json)` passes to
`requests.get`: when `format_json` is set and the endpoint does not already
end in `".json"`, the suffix `".json"` is appended to the whole endpoint
string — after any query parameters it may carry. -/
def call_senado_api_url (endpoint : String) (format_json : Bool) : String :=
  let ep := if format_json && !(str_endswith endpoint ".json") then endpoint ++ ".json"
            else endpoint
  senado_base_url ++ ep

/-- The endpoint `buscar_senadores` builds (src/api/senado_camara_tools.py:96-110):
`"/senador/lista/atual"`, plus `"?uf=" + uf.upper()` when `uf` is truthy —
Python's `if uf:` treats both `None` and the empty string as falsy. -/
def buscar_senadores_endpoint (uf : Option String) : String :=
  match uf with
  | some u => if u.length != 0 then "/senador/lista/atual" ++ ("?uf=" ++ str_upper u)
              else "/senador/lista/atual"
  | none => "/senador/lista/atual"

/-- The URL `buscar_senadores uf` requests, via
`_call_senado_api(endpoint, format_json=True)`. -/
def buscar_senadores_url (uf : Option String) : String :=
  call_senado_api_url (buscar_senadores_endpoint uf) true

/-! ### Character and string lemmas -/

theorem char_toNat_ofNat (n : Nat) (h : n.isValidChar) : (Char.ofNat n).toNat = n := by
  simp [Char.ofNat, dif_pos h, Char.ofNatAux, Char.toNat, UInt32.toNat, BitVec.toNat_ofNatLt]

theorem char_upper_toNat (c : Char) (h : 97 ≤ c.toNat ∧ c.toNat ≤ 122) :
    (char_upper c).toNat = c.toNat - 32 := by
  have hv : (c.toNat - 32).isValidChar := by
    constructor
    omega
  simp [char_upper, Char.toUpper, if_pos h, char_toNat_ofNat _ hv]

theorem char_upper_idem (c : Char) : char_upper (char_upper c) = char_upper c := by
  by_cases h : 97 ≤ c.toNat ∧ c.toNat ≤ 122
  · have h1 : (char_upper c).toNat = c.toNat - 32 := char_upper_toNat c h
    have h2 : ¬ (97 ≤ (char_upper c).toNat ∧ (char_upper c).toNat ≤ 122) := by omega
    simp only [char_upper, Char.toUpper] at h2 ⊢
    rw [if_neg h2]
  · simp only [char_upper, Char.toUpper]
    rw [if_neg h, if_neg h]

/-- Upper-casing never produces a lower-case `j`: the output of `str.upper`
cannot end in the literal suffix `".json"`. -/
theorem char_upper_ne_j (c : Char) : char_upper c ≠ 'j' := by
  intro he
  by_cases h : 97 ≤ c.toNat ∧ c.toNat ≤ 122
  · have h1 : (char_upper c).toNat = c.toNat - 32 := char_upper_toNat c h
    rw [he] at h1
    have hj : ('j').toNat = 106 := by decide
    omega
  · have hc : c = 'j' := by
      simpa [char_upper, Char.toUpper, if_neg h] using he
    subst hc
    exact h (by decide)

theorem str_upper_idem (s : String) : str_upper (str_upper s) = str_upper s := by
  simp [str_upper, List.map_map, Function.comp_def, char_upper_idem]

/-- The endpoint `"/senador/lista/atual?uf=" + uf.upper()` never ends in
`".json"`, whatever `uf` is, so `_call_senado_api` always appends the
suffix. -/
theorem upper_query_not_json (u : String) :
    str_endswith ("/senador/lista/atual" ++ ("?uf=" ++ str_upper u)) ".json" = false := by
  rw [str_endswith]
  by_contra hcontra
  rw [Bool.not_eq_false, List.isSuffixOf_iff_suffix] at hcontra
  have hj : 'j' ∈ ("/senador/lista/atual" ++ ("?uf=" ++ str_upper u)).data :=
    List.IsSuffix.mem (by decide) hcontra
  simp only [String.data_append, str_upper, List.mem_append, List.mem_map] at hj
  rcases hj with hj | hj | ⟨c, _, hc⟩
  · exact absurd hj (by decide)
  · exact absurd hj (by decide)
  · exact char_upper_ne_j c hc

/-! ### The adapter is idempotent -/

mutual

theorem conv_idem : ∀ v : JVal,
    convert_schema_to_gemini (convert_schema_to_gemini v) = convert_schema_to_gemini v
| JVal.obj fields => by
  simp [convert_schema_to_gemini, convObj_idem fields]
| JVal.str s => rfl
| JVal.num n => rfl
| JVal.bool b => rfl
| JVal.null => rfl
| JVal.arr items => rfl

theorem convObj_idem : ∀ o : JObj, convertObj (convertObj o) = convertObj o
| JObj.nil => rfl
| JObj.cons k v tl => by
  by_cases hk : skip_fields k
  · simp [convertObj, hk, convObj_idem tl]
  · simp [convertObj, hk, convObj_idem tl, convEntry_idem k v]

theorem convEntry_idem : ∀ (k : String) (v : JVal),
    convertEntry k (convertEntry k v) = convertEntry k v
| k, JVal.obj m => by
  by_cases hk : k == "properties"
  · simp [convertEntry, hk, convProps_idem m]
  · simp [convertEntry, hk, convObj_idem m]
| k, JVal.str s => by
  by_cases hk : k == "type"
  · simp [convertEntry, hk, str_upper_idem s]
  · simp [convertEntry, hk]
| k, JVal.arr items => by
  simp [convertEntry, convElems_idem items]
| k, JVal.num n => rfl
| k, JVal.bool b => rfl
| k, JVal.null => rfl

theorem convProps_idem : ∀ o : JObj, convertProps (convertProps o) = convertProps o
| JObj.nil => rfl
| JObj.cons k v tl => by
  simp [convertProps, conv_idem v, convProps_idem tl]

theorem convElems_idem : ∀ l : JArr, convertElems (convertElems l) = convertElems l
| JArr.nil => rfl
| JArr.cons hd tl => by
  simp [convertElems, conv_idem hd, convElems_idem tl]

end

/-! ### The adapter factors as drop-exclusion-keys then upper-case-types -/

mutual

theorem conv_factor : ∀ v : JVal,
    convert_schema_to_gemini v = upperTypes (dropSkip v)
| JVal.obj fields => by
  simp [convert_schema_to_gemini, dropSkip, upperTypes, convObj_factor fields]
| JVal.str s => rfl
| JVal.num n => rfl
| JVal.bool b => rfl
| JVal.null => rfl
| JVal.arr items => rfl

theorem convObj_factor : ∀ o : JObj, convertObj o = upperTypesObj (dropSkipObj o)
| JObj.nil => rfl
| JObj.cons k v tl => by
  by_cases hk : skip_fields k
  · simp [convertObj, dropSkipObj, hk, convObj_factor tl]
  · simp [convertObj, dropSkipObj, upperTypesObj, hk, convObj_factor tl, convEntry_factor k v]

theorem convEntry_factor : ∀ (k : String) (v : JVal),
    convertEntry k v = upperTypesEntry k (dropSkipEntry k v)
| k, JVal.obj m => by
  by_cases hk : k == "properties"
  · simp [convertEntry, dropSkipEntry, upperTypesEntry, hk, convProps_factor m]
  · simp [convertEntry, dropSkipEntry, upperTypesEntry, hk, convObj_factor m]
| k, JVal.str s => rfl
| k, JVal.arr items => by
  simp [convertEntry, dropSkipEntry, upperTypesEntry, convElems_factor items]
| k, JVal.num n => rfl
| k, JVal.bool b => rfl
| k, JVal.null => rfl

theorem convProps_factor : ∀ o : JObj, convertProps o = upperTypesProps (dropSkipProps o)
| JObj.nil => rfl
| JObj.cons k v tl => by
  simp [convertProps, dropSkipProps, upperTypesProps, conv_factor v, convProps_factor tl]

theorem convElems_factor : ∀ l : JArr, convertElems l = upperTypesElems (dropSkipElems l)
| JArr.nil => rfl
| JArr.cons hd tl => by
  simp [convertElems, dropSkipElems, upperTypesElems, conv_factor hd, convElems_factor tl]

end

/-! ### The adapter's output is a fixed point of the exclusion-key pass -/

mutual

theorem dropSkip_conv : ∀ v : JVal,
    dropSkip (convert_schema_to_gemini v) = convert_schema_to_gemini v
| JVal.obj fields => by
  simp [convert_schema_to_gemini, dropSkip, dropSkipObj_convObj fields]
| JVal.str s => rfl
| JVal.num n => rfl
| JVal.bool b => rfl
| JVal.null => rfl
| JVal.arr items => rfl

theorem dropSkipObj_convObj : ∀ o : JObj, dropSkipObj (convertObj o) = convertObj o
| JObj.nil => rfl
| JObj.cons k v tl => by
  by_cases hk : skip_fields k
  · simp [convertObj, hk, dropSkipObj_convObj tl]
  · simp [convertObj, dropSkipObj, hk, dropSkipObj_convObj tl, dropSkipEntry_convEntry k v]

theorem dropSkipEntry_convEntry : ∀ (k : String) (v : JVal),
    dropSkipEntry k (convertEntry k v) = convertEntry k v
| k, JVal.obj m => by
  by_cases hk : k == "properties"
  · simp [convertEntry, dropSkipEntry, hk, dropSkipProps_convProps m]
  · simp [convertEntry, dropSkipEntry, hk, dropSkipObj_convObj m]
| k, JVal.str s => by
  by_cases hk : k == "type" <;> simp [convertEntry, dropSkipEntry, hk]
| k, JVal.arr items => by
  simp [convertEntry, dropSkipEntry, dropSkipElems_convElems items]
| k, JVal.num n => rfl
| k, JVal.bool b => rfl
| k, JVal.null => rfl

theorem dropSkipProps_convProps : ∀ o : JObj, dropSkipProps (convertProps o) = convertProps o
| JObj.nil => rfl
| JObj.cons k v tl => by
  simp [convertProps, dropSkipProps, dropSkip_conv v, dropSkipProps_convProps tl]

theorem dropSkipElems_convElems : ∀ l : JArr, dropSkipElems (convertElems l) = convertElems l
| JArr.nil => rfl
| JArr.cons hd tl => by
  simp [convertElems, dropSkipElems, dropSkip_conv hd, dropSkipElems_convElems tl]

end

/-! ### Driver lemmas -/

/-- A model that answers every `send_message` with a `function_call` keeps the
Gemini while-loop running: no amount of fuel produces a result. -/
theorem gemini_loop_none (toolOut : String → Args → String) (oracle : Nat → GemResponse)
    (h : ∀ i, ∃ name args, oracle i = GemResponse.call name args) :
    ∀ fuel i, gemini_loop toolOut oracle fuel i = none := by
  intro fuel
  induction fuel with
  | zero => intro i; rfl
  | succ n ih =>
    intro i
    obtain ⟨name, args, hi⟩ := h i
    simp [gemini_loop, hi, ih (i + 1)]

theorem firstKnown_eq_none (env : ToolEnv) : ∀ l : List GroqCall,
    (∀ c ∈ l, env.known c.name = false) → firstKnown env l = none
| [], _ => rfl
| c :: rest, h => by
  have hc : env.known c.name = false := h c (by simp)
  simp only [firstKnown, hc, Bool.false_eq_true, if_false]
  exact firstKnown_eq_none env rest (fun c2 hc2 => h c2 (by simp [hc2]))

/-! ### Claims -/

/-- C1: the claim says the provider-driver tool-calling loop is capped at a
configured iteration bound so that a model which always requests another tool
call still terminates within the bound.  The code has no such cap: the Gemini
while-loop of both variants (src/backend/main.py:296, src/api/index.py:255)
carries no iteration counter, so under an always-tool-calling model it never
returns — no fuel suffices.  (The Groq drivers have no loop at all and
trivially terminate, so the violation is the Gemini path.) -/
theorem C1_gemini_loop_never_terminates :
    ∀ (env : ToolEnv) (oracle : Nat → GemResponse),
      (∀ i, ∃ name args, oracle i = GemResponse.call name args) →
      ∀ fuel : Nat,
        chat_with_gemini_backend true true env oracle fuel = none
        ∧ chat_with_gemini_index true true env oracle fuel = none := by
  intro env oracle h fuel
  constructor
  · simpa [chat_with_gemini_backend] using
      gemini_loop_none (gemini_tool_output_backend env) oracle h fuel 0
  · simpa [chat_with_gemini_index] using
      gemini_loop_none (gemini_tool_output_index env) oracle h fuel 0

/-- C1 witness: a concrete model that always calls `buscar_senadores` keeps
both Gemini drivers running past the recommended bound of 10 round-trips. -/
theorem C1_gemini_loop_never_terminates_witness :
    (∀ i : Nat, ∃ name args,
        (fun _ : Nat => GemResponse.call "buscar_senadores" []) i
          = GemResponse.call name args)
    ∧ (chat_with_gemini_backend true true
          (ToolEnv.mk (fun _ => true) (fun _ _ => CallResult.content "ok"))
          (fun _ => GemResponse.call "buscar_senadores" []) 10 = none
       ∧ chat_with_gemini_index true true
          (ToolEnv.mk (fun _ => true) (fun _ _ => CallResult.content "ok"))
          (fun _ => GemResponse.call "buscar_senadores" []) 10 = none) :=
  ⟨fun _ => ⟨"buscar_senadores", [], rfl⟩,
   C1_gemini_loop_never_terminates
     (ToolEnv.mk (fun _ => true) (fun _ _ => CallResult.content "ok"))
     (fun _ => GemResponse.call "buscar_senadores" [])
     (fun _ => ⟨"buscar_senadores", [], rfl⟩) 10⟩

/-- C2: the schema adapter is idempotent — adapting an already-adapted
schema is a no-op, for every nested JSON-Schema-like value. -/
theorem C2_schema_adapter_idempotent : ∀ v : JVal,
    convert_schema_to_gemini (convert_schema_to_gemini v) = convert_schema_to_gemini v :=
  conv_idem

/-- C3 counterexample: on the remote-session Groq path an unknown tool name
produces no textual result at all — the for-loop body is guarded by
`if fn_name in mcp_tools_map` (src/backend/main.py:234), so the request for
`ferramenta_inexistente` is silently skipped: no tool turn is appended, no
invocation happens, no fresh completion is issued, and the reply is the first
response's (null) content.  This refutes the claim that both driver paths
return a result containing a "not found" marker. -/
theorem C3_groq_backend_unknown_tool_silent :
    chat_with_groq_backend true
      (ToolEnv.mk (fun n => n == "buscar_senadores") (fun _ _ => CallResult.content "dados"))
      (Except.ok (GroqResponse.mk [GroqCall.mk "call_1" "ferramenta_inexistente" []] none))
      (Except.ok (some "resposta final"))
      = GroqRun.mk (ChatOutcome.ok none) 0 0 [] false := rfl

/-- C3 (amended): an unknown tool name never raises and never fails the chat
request, but only the Gemini paths return a textual result with a "not found"
marker (`desconhecida` / `nao encontrada`); the stateless Groq path hands the
model the generic text `Erro desconhecido`, and the remote-session Groq path
skips the call silently, returning the first response's content with no tool
turn at all. -/
theorem C3_unknown_tool_textual_amended :
    ∀ (env : ToolEnv) (name : String) (args : Args), env.known name = false →
      (gemini_tool_output_backend env name args
          = "Erro: Ferramenta " ++ name ++ " desconhecida.")
      ∧ (gemini_tool_output_index env name args
          = "Ferramenta " ++ name ++ " nao encontrada.")
      ∧ (∀ (t : String) (fuel : Nat),
          chat_with_gemini_backend true true env
            (fun i => if i == 0 then GemResponse.call name args else GemResponse.text t)
            (fuel + 2)
            = some (GemRun.mk (ChatOutcome.ok (some t))
                ["Erro: Ferramenta " ++ name ++ " desconhecida."]))
      ∧ (∀ (calls : List GroqCall) (cont : Option String) (r2 : Except String (Option String)),
          (∀ c ∈ calls, env.known c.name = false) →
          chat_with_groq_backend true env (Except.ok (GroqResponse.mk calls cont)) r2
            = GroqRun.mk (ChatOutcome.ok cont) 0 0 [] false)
      ∧ (∀ (c : GroqCall) (rest : List GroqCall) (cont t : Option String),
          c.name = name →
          chat_with_groq_index true env
            (Except.ok (GroqResponse.mk (c :: rest) cont)) (Except.ok t)
            = GroqRun.mk (ChatOutcome.ok t) 0 1 ["Erro desconhecido"] true) := by
  intro env name args h
  refine ⟨?_, ?_, ?_, ?_, ?_⟩
  · simp [gemini_tool_output_backend, h]
  · simp [gemini_tool_output_index, h]
  · intro t fuel
    simp [chat_with_gemini_backend, gemini_loop, gemini_tool_output_backend, h]
  · intro calls cont r2 hall
    simp [chat_with_groq_backend, firstKnown_eq_none env calls hall]
  · intro c rest cont t hc
    simp [chat_with_groq_index, hc, h]

/-- C3 witness: concrete catalog knowing only `buscar_senadores`: asking for
`tool_x` yields the Gemini backend's textual not-found result. -/
theorem C3_unknown_tool_textual_amended_witness :
    ((ToolEnv.mk (fun n => n == "buscar_senadores")
        (fun _ _ => CallResult.content "dados")).known "tool_x" = false)
    ∧ gemini_tool_output_backend
        (ToolEnv.mk (fun n => n == "buscar_senadores") (fun _ _ => CallResult.content "dados"))
        "tool_x" []
        = "Erro: Ferramenta " ++ "tool_x" ++ " desconhecida." :=
  ⟨rfl,
   (C3_unknown_tool_textual_amended
     (ToolEnv.mk (fun n => n == "buscar_senadores") (fun _ _ => CallResult.content "dados"))
     "tool_x" [] rfl).1⟩

/-- C4: a tool whose underlying call raises (exception or timeout) yields a
textual result embedding the exception's message (`str(e)`, empty for the
timeout on the stateless path), the exception never escapes the invoker —
the chat still returns a 200 with the second completion's reply — and
exactly one string is handed back as the tool turn. -/
theorem C4_tool_failure_textual :
    ∀ (env : ToolEnv) (name : String) (args : Args) (m : String),
      (env.call name args = CallResult.raises m →
        groq_tool_output_backend env name args = "Erro ao executar ferramenta: " ++ m
        ∧ groq_tool_output_index env name args = "Erro ferramenta: " ++ m
        ∧ (env.known name = true →
            gemini_tool_output_backend env name args = "Erro na execução da ferramenta: " ++ m
            ∧ gemini_tool_output_index env name args = "Erro execucao: " ++ m))
      ∧ (env.call name args = CallResult.timeout →
          groq_tool_output_backend env name args = "Erro: Timeout ao executar " ++ name
          ∧ (env.known name = true →
              gemini_tool_output_backend env name args = "Erro: Timeout na ferramenta " ++ name))
      ∧ (∀ (cid : String) (t : Option String),
          env.known name = true → env.call name args = CallResult.raises m →
          chat_with_groq_backend true env
            (Except.ok (GroqResponse.mk [GroqCall.mk cid name args] none)) (Except.ok t)
            = GroqRun.mk (ChatOutcome.ok t) 1 1 ["Erro ao executar ferramenta: " ++ m] true) := by
  intro env name args m
  refine ⟨?_, ?_, ?_⟩
  · intro hr
    refine ⟨?_, ?_, ?_⟩
    · simp [groq_tool_output_backend, hr]
    · simp [groq_tool_output_index, hr]
    · intro hk
      constructor
      · simp [gemini_tool_output_backend, hk, hr]
      · simp [gemini_tool_output_index, hk, hr]
  · intro ht
    constructor
    · simp [groq_tool_output_backend, ht]
    · intro hk
      simp [gemini_tool_output_backend, hk, ht]
  · intro cid t hk hr
    simp [chat_with_groq_backend, firstKnown, hk, groq_tool_output_backend, hr]

/-- C4 witness: a known tool whose call raises `Connection refused` yields
the backend Groq textual result carrying that message. -/
theorem C4_tool_failure_textual_witness :
    ((ToolEnv.mk (fun n => n == "buscar_senadores")
        (fun _ _ => CallResult.raises "Connection refused")).call
        "buscar_senadores" [] = CallResult.raises "Connection refused")
    ∧ groq_tool_output_backend
        (ToolEnv.mk (fun n => n == "buscar_senadores")
          (fun _ _ => CallResult.raises "Connection refused"))
        "buscar_senadores" []
        = "Erro ao executar ferramenta: " ++ "Connection refused" :=
  ⟨rfl,
   ((C4_tool_failure_textual
     (ToolEnv.mk (fun n => n == "buscar_senadores")
       (fun _ _ => CallResult.raises "Connection refused"))
     "buscar_senadores" [] "Connection refused").1 rfl).1⟩

/-- C5 counterexample: the first Groq response carries a tool-call request,
yet — because the requested name is not in the catalog — the remote-session
driver invokes no tool, appends no turns, issues no fresh completion and
returns the first response's content, refuting the claim's universal "invokes
exactly one tool ... and returns that completion's text". -/
theorem C5_unknown_tool_no_invocation :
    chat_with_groq_backend true
      (ToolEnv.mk (fun n => n == "buscar_senadores") (fun _ _ => CallResult.content "dados"))
      (Except.ok (GroqResponse.mk [GroqCall.mk "call_9" "ferramenta_x" []]
        (some "primeira resposta")))
      (Except.ok (some "resposta do segundo turno"))
      = GroqRun.mk (ChatOutcome.ok (some "primeira resposta")) 0 0 [] false := rfl

/-- C5 (amended): when the first Groq response contains tool-call requests
and the first request names a catalog tool, both Groq drivers invoke exactly
one tool, append one assistant tool-call turn and exactly one tool-result
turn, issue one fresh completion, and return that completion's text. -/
theorem C5_single_tool_call_amended :
    ∀ (env : ToolEnv) (c : GroqCall) (rest : List GroqCall) (cont t : Option String),
      env.known c.name = true →
      chat_with_groq_backend true env
          (Except.ok (GroqResponse.mk (c :: rest) cont)) (Except.ok t)
        = GroqRun.mk (ChatOutcome.ok t) 1 1 [groq_tool_output_backend env c.name c.args] true
      ∧ chat_with_groq_index true env
          (Except.ok (GroqResponse.mk (c :: rest) cont)) (Except.ok t)
        = GroqRun.mk (ChatOutcome.ok t) 1 1 [groq_tool_output_index env c.name c.args] true := by
  intro env c rest cont t hk
  constructor
  · simp [chat_with_groq_backend, firstKnown, hk]
  · simp [chat_with_groq_index, hk]

/-- C5 witness: the spec's scenario — a single mocked tool call to
`buscar_senadores` with `uf = SP`, then a plain final answer: exactly one
invocation, and the exposed reply is the model's final text. -/
theorem C5_single_tool_call_amended_witness :
    ((ToolEnv.mk (fun n => n == "buscar_senadores")
        (fun _ _ => CallResult.content "lista de senadores de SP")).known
        "buscar_senadores" = true)
    ∧ chat_with_groq_backend true
        (ToolEnv.mk (fun n => n == "buscar_senadores")
          (fun _ _ => CallResult.content "lista de senadores de SP"))
        (Except.ok (GroqResponse.mk
          [GroqCall.mk "call_1" "buscar_senadores" [("uf", JVal.str "SP")]] none))
        (Except.ok (some "Os senadores de SP estao listados."))
        = GroqRun.mk (ChatOutcome.ok (some "Os senadores de SP estao listados."))
            1 1 ["lista de senadores de SP"] true :=
  ⟨rfl,
   (C5_single_tool_call_amended
     (ToolEnv.mk (fun n => n == "buscar_senadores")
       (fun _ _ => CallResult.content "lista de senadores de SP"))
     (GroqCall.mk "call_1" "buscar_senadores" [("uf", JVal.str "SP")])
     [] none (some "Os senadores de SP estao listados.") rfl).1⟩

/-- C6 counterexample: the claim says every internal failure on the Gemini
path yields a 200 with the error embedded in `reply`; but the configuration
check `if not GOOGLE_API_KEY` runs before the `try`
(src/backend/main.py:279), so the Gemini path with no Google key raises
`HTTPException(500, ...)` — a non-2xx, not a 200 reply. -/
theorem C6_gemini_config_error_non_2xx :
    chat_endpoint_backend "gemini" true true false
      (ToolEnv.mk (fun _ => false) (fun _ _ => CallResult.content "x"))
      (Except.ok (GroqResponse.mk [] none)) (Except.ok none)
      (fun _ => GemResponse.text "olá") 5
      = some (ChatOutcome.httpError 500 "Google API key não configurada") := rfl

/-- C6 (amended): the Groq path turns every internal failure (missing key,
SDK exception) into a non-2xx `HTTPException(500, detail)`; the Gemini path
turns failures raised inside the conversation `try` into a 200 whose reply
embeds `"Erro interno: ..."`, while its configuration failures (missing
library or Google key, checked before the `try`) are also non-2xx; and
routing `model = "groq"` with no Groq key configured yields the 500
configuration error, not a crash. -/
theorem C6_failure_surfacing_amended :
    ∀ (env : ToolEnv) (r1 : Except String GroqResponse) (r2 : Except String (Option String))
      (oracle : Nat → GemResponse) (fuel : Nat) (m : String),
      ((chat_with_groq_backend false env r1 r2).result
          = ChatOutcome.httpError 500 "Groq API key não configurada")
      ∧ ((chat_with_groq_backend true env (Except.error m) r2).result
          = ChatOutcome.httpError 500 m)
      ∧ (oracle 0 = GemResponse.fail m →
          chat_with_gemini_backend true true env oracle (fuel + 1)
            = some (GemRun.mk (ChatOutcome.ok (some ("Erro interno: " ++ m))) []))
      ∧ (chat_with_gemini_backend true false env oracle fuel
          = some (GemRun.mk (ChatOutcome.httpError 500 "Google API key não configurada") []))
      ∧ (chat_endpoint_backend "groq" false true true env r1 r2 oracle fuel
          = some (ChatOutcome.httpError 500 "Groq API key não configurada")) := by
  intro env r1 r2 oracle fuel m
  refine ⟨?_, ?_, ?_, ?_, ?_⟩
  · simp [chat_with_groq_backend]
  · simp [chat_with_groq_backend]
  · intro h0
    simp [chat_with_gemini_backend, gemini_loop, h0]
  · simp [chat_with_gemini_backend]
  · simp [chat_endpoint_backend, chat_with_groq_backend]

/-- C6 witness: a provider-SDK failure (`quota`) inside the Gemini
conversation surfaces as a 200 whose reply embeds the error text. -/
theorem C6_failure_surfacing_amended_witness :
    ((fun _ : Nat => GemResponse.fail "quota") 0 = GemResponse.fail "quota")
    ∧ chat_with_gemini_backend true true
        (ToolEnv.mk (fun _ => false) (fun _ _ => CallResult.content "x"))
        (fun _ => GemResponse.fail "quota") 3
        = some (GemRun.mk (ChatOutcome.ok (some ("Erro interno: " ++ "quota"))) []) :=
  ⟨rfl,
   (C6_failure_surfacing_amended
     (ToolEnv.mk (fun _ => false) (fun _ _ => CallResult.content "x"))
     (Except.ok (GroqResponse.mk [] none)) (Except.ok none)
     (fun _ => GemResponse.fail "quota") 2 "quota").2.2.1 rfl⟩

/-- Schema with an exclusion key inside a list nested in a list: the adapter
recurses into dict elements of lists only, so the inner list passes through
verbatim. -/
def cex_nested_default : JVal :=
  JVal.obj (JObj.cons "a"
    (JVal.arr (JArr.cons
      (JVal.arr (JArr.cons
        (JVal.obj (JObj.cons "default" JVal.null JObj.nil)) JArr.nil))
      JArr.nil))
    JObj.nil)

/-- Schema whose `properties` mapping has a property literally named
`default`: the `properties` branch preserves keys. -/
def cex_property_named_default : JVal :=
  JVal.obj (JObj.cons "properties"
    (JVal.obj (JObj.cons "default"
      (JVal.obj (JObj.cons "type" (JVal.str "string") JObj.nil)) JObj.nil))
    JObj.nil)

/-- C7 counterexample: the adapted output can still contain the exclusion-set
key `default` at depth — inside a list nested in a list (passed through
verbatim) and as a property name under `properties` (keys preserved) — so
"never contains a key from the exclusion set at any depth" is false. -/
theorem C7_exclusion_key_retained :
    containsKey "default" (convert_schema_to_gemini cex_nested_default) = true
    ∧ convert_schema_to_gemini cex_nested_default = cex_nested_default
    ∧ containsKey "default" (convert_schema_to_gemini cex_property_named_default) = true :=
  ⟨rfl, rfl, rfl⟩

/-- C7 (amended): along the adapter's own traversal — dict values, the
values (not the keys) of a `properties` mapping, and the dict elements of
lists, but not the inside of non-dict list elements — no exclusion-set key
survives: the adapter's output is a fixed point of the exclusion-key-removal
pass `dropSkip`, so a second removal pass deletes nothing. -/
theorem C7_exclusion_keys_amended : ∀ v : JVal,
    dropSkip (convert_schema_to_gemini v) = convert_schema_to_gemini v :=
  dropSkip_conv

/-- Schema with a `type` key inside a list nested in a list: the adapter
never reaches it. -/
def cex_nested_type : JVal :=
  JVal.obj (JObj.cons "a"
    (JVal.arr (JArr.cons
      (JVal.arr (JArr.cons
        (JVal.obj (JObj.cons "type" (JVal.str "string") JObj.nil)) JArr.nil))
      JArr.nil))
    JObj.nil)

/-- C8 counterexample: a string value under a key literally named `type`
that sits inside a list nested in a list is not upper-cased — the whole
inner list passes through verbatim — refuting "upper-cases every string
value under a type key at any nesting depth". -/
theorem C8_nested_type_not_uppercased :
    convert_schema_to_gemini cex_nested_type = cex_nested_type
    ∧ str_upper "string" = "STRING"
    ∧ ("string" : String) ≠ "STRING" := by
  refine ⟨rfl, by decide, by decide⟩

/-- C8 (amended): the adapter equals the composition of the pure
exclusion-key-removal pass with the pass `upperTypes` that upper-cases
exactly the string values directly under a `type` key along the traversal
(dict values, `properties` values, dict elements of lists) and changes no
other string; strings in non-dict list elements or under dropped keys are
never touched. -/
theorem C8_type_uppercasing_amended : ∀ v : JVal,
    convert_schema_to_gemini v = upperTypes (dropSkip v) :=
  conv_factor

/-- C9 counterexample: the very first `TOOLS_SCHEMA` entry,
`buscar_senadores`, has no `required` key in its parameters (15 of the 31
entries do not), so "each schema entry carries the (name, description,
parameters with properties and required) shape" fails as stated. -/
theorem C9_entry_without_required :
    (TOOLS_SCHEMA.map (fun e => (e.name, e.parameters.required))).head?
      = some ("buscar_senadores", none) := rfl

/-- C9 (amended): the catalog has exactly 31 entries; the schema names equal
the `AVAILABLE_TOOLS` keys (even in order) and are pairwise distinct; every
entry carries name, description and a parameters object of type `OBJECT`
with a properties mapping; and where an entry has a `required` list, it
names a subset of that entry's properties. -/
theorem C9_catalog_amended :
    TOOLS_SCHEMA.length = 31
    ∧ AVAILABLE_TOOLS.length = 31
    ∧ TOOLS_SCHEMA.map ToolSchemaEntry.name = AVAILABLE_TOOLS.map Prod.fst
    ∧ (TOOLS_SCHEMA.map ToolSchemaEntry.name).Nodup
    ∧ (TOOLS_SCHEMA.all (fun e => e.parameters.ptype == "OBJECT") = true)
    ∧ (TOOLS_SCHEMA.all (fun e =>
        match e.parameters.required with
        | none => true
        | some r => r.all (fun k => (e.parameters.properties.map Prod.fst).contains k))
        = true) := by
  refine ⟨rfl, rfl, rfl, ?_, rfl, rfl⟩
  decide

/-- C10 counterexample: Python's `if uf:` is a truthiness test, so the
non-None empty string behaves like None: the requested URL has no `?uf=`
query at all, refuting the claim's "for every non-None uf". -/
theorem C10_empty_uf :
    buscar_senadores_url (some "")
      = "https://legis.senado.leg.br/dadosabertos/senador/lista/atual.json"
    ∧ buscar_senadores_url (some "")
      ≠ senado_base_url ++ "/senador/lista/atual?uf=" ++ str_upper "" ++ ".json" := by
  refine ⟨rfl, by decide⟩

/-- C10 (amended): for every non-empty `uf` the requested URL is the base,
the path, the upper-cased query value, and then the `.json` suffix — landing
after the query value, because `_call_senado_api` appends it to the whole
endpoint string; for `uf = None` (and the falsy empty string) the URL is the
plain `.../senador/lista/atual.json`. -/
theorem C10_url_amended : ∀ u : String, u ≠ "" →
    buscar_senadores_url (some u)
      = senado_base_url ++ "/senador/lista/atual?uf=" ++ str_upper u ++ ".json"
    ∧ buscar_senadores_url none
      = senado_base_url ++ "/senador/lista/atual.json" := by
  intro u hu
  constructor
  · have hlen : (u.length != 0) = true := by
      rw [bne_iff_ne]
      intro h0
      apply hu
      apply String.ext
      have hd : u.data = [] := List.length_eq_zero.mp h0
      rw [hd]
    simp only [buscar_senadores_url, buscar_senadores_endpoint, hlen, if_true]
    simp only [call_senado_api_url, upper_query_not_json u, Bool.not_false, Bool.and_self]
    apply String.ext
    simp only [String.data_append, List.append_assoc]
    rfl
  · rfl

/-- C10 witness: `uf = "sp"` is requested as
`.../senador/lista/atual?uf=SP.json` — upper-cased, with the suffix after
the query value. -/
theorem C10_url_amended_witness :
    ("sp" : String) ≠ ""
    ∧ buscar_senadores_url (some "sp")
      = senado_base_url ++ "/senador/lista/atual?uf=" ++ str_upper "sp" ++ ".json" :=
  ⟨by decide, (C10_url_amended "sp" (by decide)).1⟩
